import Mathlib

/-!
Verification of the Twitch chat ingest/parse pipeline from
"How to Stream Text Data from Twitch with Sockets in Python".

The development shallowly embeds the two pieces of the notebook the
specification is about:

* the receive loop
    `while True: resp = sock.recv(2048).decode('utf-8');
     if resp.startswith('PING'): sock.send("PONG\n".encode('utf-8'))
     elif len(resp) > 0: logging.info(demojize(resp))`
  where the logger's format is `'%(asctime)s — %(message)s'` with
  `datefmt='%Y-%m-%d_%H:%M:%S'`;

* the batch parser `get_chat_dataframe`, which splits the log file content on
  `'\n\n\n'` and, per record inside a `try/except Exception: pass`,
  runs `datetime.strptime(line.split('—')[0].strip(), '%Y-%m-%d_%H:%M:%S')`,
  rebuilds `'—'.join(line.split('—')[1:]).strip()`, and extracts the three
  capture groups of
  `re.search(':(.*)\!.*@.*\.tmi\.twitch\.tv PRIVMSG #(.*) :(.*)', ...)`.

Python strings are embedded as `List Char` (Python 3 `str` is a sequence of
code points).  Python exceptions inside the per-record `try` are embedded as
`Option`: a raised-and-swallowed exception is `none`.  `str.split`,
`str.join`, `str.strip`, `str.startswith` are re-implemented with Python's
semantics; `datetime.strptime` follows CPython's `_strptime` regex for the
fixed format plus the `datetime` constructor's range validation; `re.search`
is embedded by a fuel-indexed backtracking matcher restricted to the shapes
occurring in the fixed pattern (literals and greedy `(.*)` / `.*`), with
Python's leftmost-match, greedy, priority-ordered backtracking semantics.
-/

namespace TwitchChat

set_option maxRecDepth 100000

/-! ## Python string primitives -/

/-- Characters for which Python's `str.strip()` removes an occurrence:
`str.isspace` code points (ASCII whitespace, the information separators,
NEL, NBSP and the Unicode space/line/paragraph separators). -/
def isPySpace (c : Char) : Bool :=
  c = ' ' || c = '\t' || c = '\n' || c = '\r' ||
  c.toNat = 0x0b || c.toNat = 0x0c ||
  (0x1c ≤ c.toNat && c.toNat ≤ 0x1f) ||
  c.toNat = 0x85 || c.toNat = 0xa0 || c.toNat = 0x1680 ||
  (0x2000 ≤ c.toNat && c.toNat ≤ 0x200a) ||
  c.toNat = 0x2028 || c.toNat = 0x2029 || c.toNat = 0x202f ||
  c.toNat = 0x205f || c.toNat = 0x3000

/-- Python `s.strip()`. -/
def pyStrip (s : List Char) : List Char :=
  ((s.dropWhile isPySpace).reverse.dropWhile isPySpace).reverse

/-- Python `s.startswith(pre)`. -/
def pyStartsWith (s pre : String) : Bool :=
  pre.data.isPrefixOf s.data

/-- Python `line.split('—')`: split on every occurrence of the em dash,
scanning left to right.  The accumulator holds the current (reversed)
fragment. -/
def splitOnEmDash : List Char → List Char → List (List Char)
  | [], acc => [acc.reverse]
  | c :: s, acc =>
    if c = '—' then acc.reverse :: splitOnEmDash s []
    else splitOnEmDash s (c :: acc)

/-- Python `content.split('\n\n\n')`: split on every non-overlapping
occurrence of three consecutive newlines, scanning left to right. -/
def splitTripleNL : List Char → List Char → List (List Char)
  | '\n' :: '\n' :: '\n' :: s, acc => acc.reverse :: splitTripleNL s []
  | c :: s, acc => splitTripleNL s (c :: acc)
  | [], acc => [acc.reverse]

/-- Python `'—'.join(parts)`. -/
def joinEmDash : List (List Char) → List Char
  | [] => []
  | [x] => x
  | x :: xs => x ++ '—' :: joinEmDash xs

/-! ## `datetime.strptime(_, '%Y-%m-%d_%H:%M:%S')`

CPython's `_strptime` compiles the format into the regex
`(?P<Y>\d\d\d\d)\-(?P<m>1[0-2]|0[1-9]|[1-9])\-(?P<d>3[01]|[12]\d|0[1-9]|[1-9])_`
`(?P<H>2[0-3]|[0-1]\d|\d):(?P<M>[0-5]\d|\d):(?P<S>6[0-1]|[0-5]\d|\d)`,
requires the match to consume the whole string ("unconverted data remains"
otherwise), and then calls the `datetime` constructor, which additionally
validates the year (≥ 1), the day against the month length, and rejects the
leap seconds 60/61 the regex admits.  Each field parser below returns its
alternation's candidates in the regex's priority order; `List.findSome?`
realises the backtracking. -/

structure Timestamp where
  year : Nat
  month : Nat
  day : Nat
  hour : Nat
  minute : Nat
  second : Nat
deriving DecidableEq, Repr

def digitVal (c : Char) : Nat := c.toNat - 48

/-- Candidates of `1[0-2]|0[1-9]|[1-9]` (month), in priority order. -/
def monthCands : List Char → List (Nat × List Char)
  | c1 :: c2 :: rest =>
    (if c1 = '1' ∧ '0' ≤ c2 ∧ c2 ≤ '2' then [(10 + digitVal c2, rest)] else []) ++
    (if c1 = '0' ∧ '1' ≤ c2 ∧ c2 ≤ '9' then [(digitVal c2, rest)] else []) ++
    (if '1' ≤ c1 ∧ c1 ≤ '9' then [(digitVal c1, c2 :: rest)] else [])
  | [c1] => if '1' ≤ c1 ∧ c1 ≤ '9' then [(digitVal c1, [])] else []
  | [] => []

/-- Candidates of `3[01]|[12]\d|0[1-9]|[1-9]` (day), in priority order. -/
def dayCands : List Char → List (Nat × List Char)
  | c1 :: c2 :: rest =>
    (if c1 = '3' ∧ (c2 = '0' ∨ c2 = '1') then [(30 + digitVal c2, rest)] else []) ++
    (if (c1 = '1' ∨ c1 = '2') ∧ c2.isDigit then [(10 * digitVal c1 + digitVal c2, rest)] else []) ++
    (if c1 = '0' ∧ '1' ≤ c2 ∧ c2 ≤ '9' then [(digitVal c2, rest)] else []) ++
    (if '1' ≤ c1 ∧ c1 ≤ '9' then [(digitVal c1, c2 :: rest)] else [])
  | [c1] => if '1' ≤ c1 ∧ c1 ≤ '9' then [(digitVal c1, [])] else []
  | [] => []

/-- Candidates of `2[0-3]|[0-1]\d|\d` (hour), in priority order. -/
def hourCands : List Char → List (Nat × List Char)
  | c1 :: c2 :: rest =>
    (if c1 = '2' ∧ '0' ≤ c2 ∧ c2 ≤ '3' then [(20 + digitVal c2, rest)] else []) ++
    (if (c1 = '0' ∨ c1 = '1') ∧ c2.isDigit then [(10 * digitVal c1 + digitVal c2, rest)] else []) ++
    (if c1.isDigit then [(digitVal c1, c2 :: rest)] else [])
  | [c1] => if c1.isDigit then [(digitVal c1, [])] else []
  | [] => []

/-- Candidates of `[0-5]\d|\d` (minute), in priority order. -/
def minuteCands : List Char → List (Nat × List Char)
  | c1 :: c2 :: rest =>
    (if '0' ≤ c1 ∧ c1 ≤ '5' ∧ c2.isDigit then [(10 * digitVal c1 + digitVal c2, rest)] else []) ++
    (if c1.isDigit then [(digitVal c1, c2 :: rest)] else [])
  | [c1] => if c1.isDigit then [(digitVal c1, [])] else []
  | [] => []

/-- Candidates of `6[0-1]|[0-5]\d|\d` (second), in priority order. -/
def secondCands : List Char → List (Nat × List Char)
  | c1 :: c2 :: rest =>
    (if c1 = '6' ∧ (c2 = '0' ∨ c2 = '1') then [(60 + digitVal c2, rest)] else []) ++
    (if '0' ≤ c1 ∧ c1 ≤ '5' ∧ c2.isDigit then [(10 * digitVal c1 + digitVal c2, rest)] else []) ++
    (if c1.isDigit then [(digitVal c1, c2 :: rest)] else [])
  | [c1] => if c1.isDigit then [(digitVal c1, [])] else []
  | [] => []

def isLeapYear (y : Nat) : Bool :=
  y % 4 == 0 && (y % 100 != 0 || y % 400 == 0)

def daysInMonth (y m : Nat) : Nat :=
  if m = 2 then (if isLeapYear y then 29 else 28)
  else if m = 4 ∨ m = 6 ∨ m = 9 ∨ m = 11 then 30
  else 31

/-- The range checks the `datetime` constructor performs on top of the
`_strptime` regex (month/hour/minute bounds are already forced by the
regex alternations). -/
def validDatetime (y m d s : Nat) : Bool :=
  decide (1 ≤ y ∧ d ≤ daysInMonth y m ∧ s ≤ 59)

/-- `datetime.strptime(s, '%Y-%m-%d_%H:%M:%S')`, `none` embedding the raised
`ValueError`. -/
def parseTimestampChars : List Char → Option Timestamp
  | y1 :: y2 :: y3 :: y4 :: '-' :: rest =>
    if y1.isDigit ∧ y2.isDigit ∧ y3.isDigit ∧ y4.isDigit then
      let y := 1000 * digitVal y1 + 100 * digitVal y2 + 10 * digitVal y3 + digitVal y4
      (monthCands rest).findSome? fun mc =>
        match mc.2 with
        | '-' :: r2 =>
          (dayCands r2).findSome? fun dc =>
            match dc.2 with
            | '_' :: r4 =>
              (hourCands r4).findSome? fun hc =>
                match hc.2 with
                | ':' :: r6 =>
                  (minuteCands r6).findSome? fun nc =>
                    match nc.2 with
                    | ':' :: r8 =>
                      (secondCands r8).findSome? fun sc =>
                        if sc.2 = [] ∧ validDatetime y mc.1 dc.1 sc.1 = true then
                          some ⟨y, mc.1, dc.1, hc.1, nc.1, sc.1⟩
                        else none
                    | _ => none
                | _ => none
            | _ => none
        | _ => none
    else none
  | _ => none

/-! ## `re.search(':(.*)\!.*@.*\.tmi\.twitch\.tv PRIVMSG #(.*) :(.*)', s)`

The pattern is a sequence of literals and greedy `.*` items (capturing or
not); `.` does not match `'\n'`.  `reM` runs Python's backtracking order
directly: a greedy item first tries to consume the longest `'\n'`-free run,
retrying one character shorter on failure of the whole remainder (`starK k`
is the state "currently trying length `k`").  The fuel only bounds the
recursion depth; `matchFuel` exceeds the worst-case depth
(each star chain is at most `|s| + 2` deep and there are at most `|pat|`
items), so it never cuts a search short. -/

inductive RElem where
  | lit : Char → RElem
  | grp : RElem
  | star : RElem
  | starK : Bool → Nat → RElem
deriving DecidableEq, Repr

/-- Length of the longest `'\n'`-free prefix: the most a greedy `.*` can
consume. -/
def maxRun (s : List Char) : Nat :=
  (s.takeWhile (fun c => c ≠ '\n')).length

def reM : Nat → List RElem → List Char → Option (List (List Char))
  | 0, _, _ => none
  | _ + 1, [], _ => some []
  | fuel + 1, RElem.lit c :: rest, s =>
    match s with
    | [] => none
    | a :: s' => if a = c then reM fuel rest s' else none
  | fuel + 1, RElem.grp :: rest, s => reM fuel (RElem.starK true (maxRun s) :: rest) s
  | fuel + 1, RElem.star :: rest, s => reM fuel (RElem.starK false (maxRun s) :: rest) s
  | fuel + 1, RElem.starK cap k :: rest, s =>
    match reM fuel rest (s.drop k) with
    | some caps => some (if cap then s.take k :: caps else caps)
    | none =>
      match k with
      | 0 => none
      | k' + 1 => reM fuel (RElem.starK cap k' :: rest) s

def matchFuel (pat : List RElem) (s : List Char) : Nat :=
  (pat.length + 1) * (s.length + 2) + 1

/-- `re.search`: try each start position left to right (the match need not
reach the end of the string). -/
def reSearch (pat : List RElem) : List Char → Option (List (List Char))
  | [] => reM (matchFuel pat []) pat []
  | c :: s' =>
    match reM (matchFuel pat (c :: s')) pat (c :: s') with
    | some caps => some caps
    | none => reSearch pat s'

def lits (s : String) : List RElem := s.data.map RElem.lit

/-- The fixed extraction pattern of the source,
`':(.*)\!.*@.*\.tmi\.twitch\.tv PRIVMSG #(.*) :(.*)'`
(`\!`, `\.` are literal characters). -/
def privmsgPattern : List RElem :=
  [RElem.lit ':', RElem.grp, RElem.lit '!', RElem.star, RElem.lit '@', RElem.star]
    ++ lits ".tmi.twitch.tv PRIVMSG #"
    ++ [RElem.grp, RElem.lit ' ', RElem.lit ':', RElem.grp]

/-! ## `get_chat_dataframe` -/

/-- One row of the resulting DataFrame, the dict
`{'dt': ..., 'channel': ..., 'username': ..., 'message': ...}`. -/
structure ParsedMessage where
  dt : Timestamp
  channel : String
  username : String
  message : String
deriving DecidableEq, Repr

/-- `line.split('—')[0].strip()`: the text handed to `strptime`. -/
def tsTokenOf (line : List Char) : List Char :=
  pyStrip ((splitOnEmDash line []).headD [])

/-- `'—'.join(line.split('—')[1:]).strip()`: the text handed to
`re.search`. -/
def umOf (line : List Char) : List Char :=
  pyStrip (joinEmDash ((splitOnEmDash line []).drop 1))

/-- The body of the `try` for one record; `none` embeds any swallowed
exception (`ValueError` from `strptime`, `AttributeError` from
`.groups()` on a failed search). -/
def parseRecord (line : List Char) : Option ParsedMessage :=
  match parseTimestampChars (tsTokenOf line) with
  | none => none
  | some ts =>
    match reSearch privmsgPattern (umOf line) with
    | some [u, c, m] =>
      some { dt := ts, channel := String.mk c, username := String.mk u, message := String.mk m }
    | _ => none

/-- `f.read().split('\n\n\n')`. -/
def splitRecords (content : String) : List (List Char) :=
  splitTripleNL content.data []

/-- The `for line in lines` loop with its `data.append(d)` accumulator. -/
def gcdLoop : List (List Char) → List ParsedMessage → List ParsedMessage
  | [], data => data
  | line :: rest, data =>
    match parseRecord line with
    | some d => gcdLoop rest (data ++ [d])
    | none => gcdLoop rest data

/-- `get_chat_dataframe`, as the list of records backing the returned
DataFrame (in row order). -/
def get_chat_dataframe (content : String) : List ParsedMessage :=
  gcdLoop (splitRecords content) []

/-! ## The receive loop -/

/-- Modelled from the spec: the external `emoji` library's `demojize`, an
out-of-scope pure text substitution.  The notebook's own text documents the
one concrete mapping `👍 ↦ ":thumbs_up:"`; the model applies exactly that
documented mapping and passes every other character through. -/
def demojize (s : String) : String :=
  String.mk (s.data.flatMap fun c => if c = '👍' then ":thumbs_up:".data else [c])

/-- One line appended by `logging.info(msg)` under the configuration
`format='%(asctime)s — %(message)s'`, `datefmt='%Y-%m-%d_%H:%M:%S'`
(the handler adds the terminating newline). -/
def logRecord (now msg : String) : String :=
  now ++ " — " ++ msg ++ "\n"

/-- One iteration of the `while True` body on a decoded chunk `resp`:
the strings sent on the socket, and the lines appended to the log. -/
def receiveIteration (now resp : String) : List String × List String :=
  if pyStartsWith resp "PING" then (["PONG\n"], [])
  else if 0 < resp.data.length then ([], [logRecord now (demojize resp)])
  else ([], [])

/-- What one `sock.recv(2048).decode('utf-8')` can come back with: a decoded
chunk (possibly empty, as after peer closure), or a raised exception
(connection error, or external cancellation surfacing as an error). -/
inductive ReadEvent where
  | chunk : String → ReadEvent
  | error : ReadEvent
deriving DecidableEq, Repr

inductive LoopOutcome where
  | terminated : LoopOutcome
  | stillRunning : LoopOutcome
deriving DecidableEq, Repr

/-- The `while True` loop run over a finite prefix of read results: the
sends, the appends, and whether the loop has left the `while True`
(`terminated` only via a propagated exception; `stillRunning` means it is
back at the blocking `recv`). -/
def runLoop (now : String) : List ReadEvent → List String × List String × LoopOutcome
  | [] => ([], [], LoopOutcome.stillRunning)
  | ReadEvent.error :: _ => ([], [], LoopOutcome.terminated)
  | ReadEvent.chunk s :: rest =>
    let step := receiveIteration now s
    let r := runLoop now rest
    (step.1 ++ r.1, step.2 ++ r.2.1, r.2.2)

/-! ## Helper lemmas -/

theorem gcdLoop_eq (l : List (List Char)) :
    ∀ data, gcdLoop l data = data ++ l.filterMap parseRecord := by
  induction l with
  | nil => intro data; simp [gcdLoop]
  | cons line rest ih =>
    intro data
    cases h : parseRecord line with
    | none => simp [gcdLoop, h, ih]
    | some d => simp [gcdLoop, h, ih]

theorem parseRecord_inv {line : List Char} {m : ParsedMessage}
    (h : parseRecord line = some m) :
    parseTimestampChars (tsTokenOf line) = some m.dt ∧
    reSearch privmsgPattern (umOf line) =
      some [m.username.data, m.channel.data, m.message.data] := by
  unfold parseRecord at h
  cases hts : parseTimestampChars (tsTokenOf line) with
  | none => rw [hts] at h; exact absurd h (by simp)
  | some ts =>
    rw [hts] at h
    cases hre : reSearch privmsgPattern (umOf line) with
    | none => rw [hre] at h; simp at h
    | some gs =>
      rw [hre] at h
      match gs, h with
      | [u, c, mm], h =>
        cases Option.some.inj h
        exact ⟨rfl, rfl⟩

theorem parseRecord_ts_none {line : List Char}
    (h : parseTimestampChars (tsTokenOf line) = none) :
    parseRecord line = none := by
  unfold parseRecord
  rw [h]

theorem splitOnEmDash_append {pre : List Char} (hpre : '—' ∉ pre) :
    ∀ (rest acc : List Char),
      splitOnEmDash (pre ++ '—' :: rest) acc =
        (acc.reverse ++ pre) :: splitOnEmDash rest [] := by
  induction pre with
  | nil => intro rest acc; simp [splitOnEmDash]
  | cons c pre' ih =>
    intro rest acc
    have hc : c ≠ '—' := fun hc => hpre (hc ▸ List.mem_cons_self c pre')
    have hpre' : '—' ∉ pre' := fun hm => hpre (List.mem_cons_of_mem c hm)
    simp only [List.cons_append, splitOnEmDash, if_neg hc, List.append_eq]
    rw [ih hpre' rest (c :: acc)]
    simp

theorem splitOnEmDash_ne_nil : ∀ (s acc : List Char), splitOnEmDash s acc ≠ [] := by
  intro s
  induction s with
  | nil => intro acc; simp [splitOnEmDash]
  | cons c s' ih =>
    intro acc
    by_cases hc : c = '—' <;> simp [splitOnEmDash, hc, ih]

theorem joinEmDash_splitOnEmDash :
    ∀ (s acc : List Char), joinEmDash (splitOnEmDash s acc) = acc.reverse ++ s := by
  intro s
  induction s with
  | nil => intro acc; simp [splitOnEmDash, joinEmDash]
  | cons c s' ih =>
    intro acc
    by_cases hc : c = '—'
    · subst hc
      simp only [splitOnEmDash, if_pos rfl]
      obtain ⟨x, xs, hx⟩ : ∃ x xs, splitOnEmDash s' [] = x :: xs := by
        cases h : splitOnEmDash s' [] with
        | nil => exact absurd h (splitOnEmDash_ne_nil s' [])
        | cons x xs => exact ⟨x, xs, rfl⟩
      have := ih ([] : List Char)
      rw [hx] at this ⊢
      cases xs with
      | nil => simp [joinEmDash] at this ⊢; simp [this]
      | cons y ys => simp [joinEmDash] at this ⊢; simp [this]
    · simp only [splitOnEmDash, if_neg hc]
      rw [ih (c :: acc)]
      simp

theorem umOf_append {pre body : List Char} (hpre : '—' ∉ pre) :
    umOf (pre ++ '—' :: body) = pyStrip body := by
  unfold umOf
  rw [splitOnEmDash_append hpre body []]
  simp only [List.drop_succ_cons, List.drop_zero]
  rw [joinEmDash_splitOnEmDash body []]
  simp

theorem tsTokenOf_append {pre : List Char} (hpre : '—' ∉ pre) (rest : List Char) :
    tsTokenOf (pre ++ '—' :: rest) = pyStrip pre := by
  unfold tsTokenOf
  rw [splitOnEmDash_append hpre rest []]
  simp

/-! ## Claims -/

/-- C1: for a log file whose entire content is the single record
`"2018-12-10_11:26:40 — :alice!alice@alice.tmi.twitch.tv PRIVMSG #ninja :hello world\n\n\n"`,
`get_chat_dataframe` yields exactly one ParsedMessage, with timestamp
2018-12-10T11:26:40, channel `"ninja"`, username `"alice"`, and message
`"hello world"`. -/
theorem c1_round_trip :
    get_chat_dataframe
        "2018-12-10_11:26:40 — :alice!alice@alice.tmi.twitch.tv PRIVMSG #ninja :hello world\n\n\n" =
      [{ dt := ⟨2018, 12, 10, 11, 26, 40⟩, channel := "ninja", username := "alice",
         message := "hello world" }] := by
  decide

/-- C2: for every input file content, `get_chat_dataframe` returns a
(possibly empty) list — exceptions are confined to the per-record `try` and
embedded as `none` — equal to the per-record parses with every failing
record dropped; consequently every emitted row comes from a record whose
parse succeeded in full (no partially filled record). -/
theorem c2_error_policy : ∀ content : String,
    get_chat_dataframe content = (splitRecords content).filterMap parseRecord ∧
    ∀ m ∈ get_chat_dataframe content, ∃ r ∈ splitRecords content, parseRecord r = some m := by
  intro content
  have heq : get_chat_dataframe content = (splitRecords content).filterMap parseRecord := by
    unfold get_chat_dataframe
    rw [gcdLoop_eq, List.nil_append]
  refine ⟨heq, ?_⟩
  intro m hm
  rw [heq] at hm
  obtain ⟨r, hr, hpr⟩ := List.mem_filterMap.mp hm
  exact ⟨r, hr, hpr⟩

/-- Witness for C2 at a concrete two-record log: the malformed first record
is dropped, the well-formed second record is traced back to its source
record. -/
theorem c2_witness :
    ∃ r ∈ splitRecords
        "not-a-date — x\n\n\n2001-02-03_04:05:06 — :u!u@u.tmi.twitch.tv PRIVMSG #c :hey",
      parseRecord r =
        some { dt := ⟨2001, 2, 3, 4, 5, 6⟩, channel := "c", username := "u", message := "hey" } :=
  (c2_error_policy
      "not-a-date — x\n\n\n2001-02-03_04:05:06 — :u!u@u.tmi.twitch.tv PRIVMSG #c :hey").2
    _ (by decide)

/-- C3 counterexample: the chunk `"hi 👍"` is non-empty and does not start
with `"PING"`, and the iteration performs exactly one append; but the
appended line carries the demojized text `"hi :thumbs_up:"` and does not
contain the chunk's decoded text verbatim, refuting the claim as stated. -/
theorem c3_counterexample :
    pyStartsWith "hi 👍" "PING" = false ∧
    receiveIteration "2018-12-10_11:26:40" "hi 👍" =
      ([], ["2018-12-10_11:26:40 — hi :thumbs_up:\n"]) ∧
    ¬ ("hi 👍".data <:+: "2018-12-10_11:26:40 — hi :thumbs_up:\n".data) := by
  decide

/-- C3 amended: for every non-empty chunk not starting with `"PING"`, the
iteration sends nothing and performs exactly one log append, and the
appended text contains the chunk's decoded text after emoji substitution
(`demojize`) verbatim — only for chunks the substitution leaves unchanged is
that the raw chunk text. -/
theorem c3_amended : ∀ now resp : String,
    pyStartsWith resp "PING" = false → resp.data ≠ [] →
    (receiveIteration now resp).1 = [] ∧
    (receiveIteration now resp).2 = [logRecord now (demojize resp)] ∧
    (demojize resp).data <:+: (logRecord now (demojize resp)).data := by
  intro now resp h1 h2
  have hlen : 0 < resp.data.length := List.length_pos.mpr h2
  have hlen' : ¬ resp.length = 0 := by
    have h3 : resp.length = resp.data.length := rfl
    omega
  have hit : receiveIteration now resp = ([], [logRecord now (demojize resp)]) := by
    unfold receiveIteration
    rw [h1]
    simp [hlen, hlen']
  rw [hit]
  refine ⟨rfl, rfl, now.data ++ " — ".data, "\n".data, ?_⟩
  unfold logRecord
  simp [String.data_append]

/-- Witness for C3 at the chunk `"hello"`. -/
theorem c3_witness :
    (receiveIteration "2018-12-10_11:26:40" "hello").1 = [] ∧
    (receiveIteration "2018-12-10_11:26:40" "hello").2 =
      [logRecord "2018-12-10_11:26:40" (demojize "hello")] ∧
    (demojize "hello").data <:+:
      (logRecord "2018-12-10_11:26:40" (demojize "hello")).data :=
  c3_amended "2018-12-10_11:26:40" "hello" (by decide) (by decide)

/-- C4: for every chunk beginning with `"PING"`, the iteration sends exactly
`"PONG\n"` back on the socket and performs no log append. -/
theorem c4_ping_pong : ∀ now resp : String,
    pyStartsWith resp "PING" = true →
    receiveIteration now resp = (["PONG\n"], []) := by
  intro now resp h
  unfold receiveIteration
  rw [h]
  simp

/-- Witness for C4 at a real liveness probe chunk. -/
theorem c4_witness :
    receiveIteration "2018-12-10_11:26:40" "PING :tmi.twitch.tv" = (["PONG\n"], []) :=
  c4_ping_pong "2018-12-10_11:26:40" "PING :tmi.twitch.tv" (by decide)

/-- C5 counterexample: the record
`"2018-12-10_11:26:40 — :!x@y.tmi.twitch.tv PRIVMSG # :"` is emitted (its
timestamp parses and the pattern matches with all three captures empty),
so a ParsedMessage with empty username, channel and message reaches the
output instead of being dropped — refuting the non-emptiness invariant. -/
theorem c5_counterexample :
    get_chat_dataframe "2018-12-10_11:26:40 — :!x@y.tmi.twitch.tv PRIVMSG # :\n\n\n" =
      [{ dt := ⟨2018, 12, 10, 11, 26, 40⟩, channel := "", username := "", message := "" }] ∧
    (get_chat_dataframe "2018-12-10_11:26:40 — :!x@y.tmi.twitch.tv PRIVMSG # :\n\n\n").map
        ParsedMessage.username = [""] := by
  decide

/-- C5 amended: every emitted ParsedMessage comes from a record whose
timestamp token parsed under the fixed format `%Y-%m-%d_%H:%M:%S` and whose
remainder matched the extraction pattern, the three fields being exactly the
pattern's captures (which may be empty strings); records failing either step
are dropped. -/
theorem c5_amended : ∀ (content : String) (m : ParsedMessage),
    m ∈ get_chat_dataframe content →
    ∃ r ∈ splitRecords content,
      parseRecord r = some m ∧
      parseTimestampChars (tsTokenOf r) = some m.dt ∧
      reSearch privmsgPattern (umOf r) =
        some [m.username.data, m.channel.data, m.message.data] := by
  intro content m hm
  unfold get_chat_dataframe at hm
  rw [gcdLoop_eq, List.nil_append] at hm
  obtain ⟨r, hr, hpr⟩ := List.mem_filterMap.mp hm
  exact ⟨r, hr, hpr, (parseRecord_inv hpr).1, (parseRecord_inv hpr).2⟩

/-- Witness for C5 at a concrete well-formed record. -/
theorem c5_witness :
    ∃ r ∈ splitRecords "2018-12-10_11:26:40 — :bob!bob@bob.tmi.twitch.tv PRIVMSG #chess :gg\n\n\n",
      parseRecord r =
        some { dt := ⟨2018, 12, 10, 11, 26, 40⟩, channel := "chess", username := "bob",
               message := "gg" } ∧
      parseTimestampChars (tsTokenOf r) = some ⟨2018, 12, 10, 11, 26, 40⟩ ∧
      reSearch privmsgPattern (umOf r) = some ["bob".data, "chess".data, "gg".data] :=
  c5_amended "2018-12-10_11:26:40 — :bob!bob@bob.tmi.twitch.tv PRIVMSG #chess :gg\n\n\n"
    { dt := ⟨2018, 12, 10, 11, 26, 40⟩, channel := "chess", username := "bob", message := "gg" }
    (by decide)

/-- C6 counterexample: the record
`"2018-12-10_11:26:40 extra — ..."` has the valid timestamp
`"2018-12-10_11:26:40"` as its first whitespace-delimited token, yet the
parser drops it: the timestamp text is everything before the first em dash
(`"2018-12-10_11:26:40 extra"`), which `strptime` rejects. -/
theorem c6_counterexample :
    ("2018-12-10_11:26:40 extra — :alice!alice@alice.tmi.twitch.tv PRIVMSG #ninja :hi".data.takeWhile
        (fun c => !isPySpace c)) = "2018-12-10_11:26:40".data ∧
    parseTimestampChars "2018-12-10_11:26:40".data = some ⟨2018, 12, 10, 11, 26, 40⟩ ∧
    parseRecord
        "2018-12-10_11:26:40 extra — :alice!alice@alice.tmi.twitch.tv PRIVMSG #ninja :hi".data =
      none ∧
    get_chat_dataframe
        "2018-12-10_11:26:40 extra — :alice!alice@alice.tmi.twitch.tv PRIVMSG #ninja :hi\n\n\n" =
      [] := by
  decide

/-- C6 amended: the parser obtains the timestamp by taking the part of the
record before the first separator glyph (em dash) — not the first
whitespace-delimited token — stripping surrounding whitespace, and parsing
that whole string with the fixed pattern; on failure the record is dropped
silently. -/
theorem c6_amended :
    (∀ line : List Char,
      parseTimestampChars (tsTokenOf line) = none → parseRecord line = none) ∧
    (∀ pre rest : List Char, '—' ∉ pre → tsTokenOf (pre ++ '—' :: rest) = pyStrip pre) :=
  ⟨fun _ h => parseRecord_ts_none h, fun _ rest h => tsTokenOf_append h rest⟩

/-- Witness for C6: a record whose pre-separator part fails `strptime` is
dropped, and the timestamp token is the stripped pre-separator part. -/
theorem c6_witness :
    parseRecord "not-a-date — :x!x@x.tmi.twitch.tv PRIVMSG #c :m".data = none ∧
    tsTokenOf ("2018-12-10_11:26:40 ".data ++ '—' :: " body".data) =
      pyStrip "2018-12-10_11:26:40 ".data :=
  ⟨c6_amended.1 _ (by decide), c6_amended.2 _ _ (by decide)⟩

/-- C7 counterexample: when a read returns an empty chunk (the transport was
closed from outside), the loop takes neither branch and is still running —
it does not observe the closure and terminate. -/
theorem c7_counterexample :
    runLoop "2018-12-10_11:26:40" [ReadEvent.chunk ""] =
      ([], [], LoopOutcome.stillRunning) ∧
    LoopOutcome.stillRunning ≠ LoopOutcome.terminated := by
  decide

/-- C7 amended: the receive loop never observes an empty chunk as closure —
an empty chunk produces no send and no append and the loop keeps running
(busy-spinning on further empty reads); the loop leaves `while True` exactly
when a read raises (connection error, or external cancellation surfacing as
an exception). -/
theorem c7_amended : ∀ (now : String) (events : List ReadEvent),
    ((runLoop now events).2.2 = LoopOutcome.terminated ↔ ReadEvent.error ∈ events) ∧
    receiveIteration now "" = ([], []) := by
  intro now events
  constructor
  · induction events with
    | nil => simp [runLoop]
    | cons e rest ih =>
      cases e with
      | error => simp [runLoop]
      | chunk s => simp [runLoop, ih]
  · rfl

/-- C8 counterexample: for the record whose message body is `"a — b :c"`
(which contains the separator glyph), the emitted message field is `"c"` —
the greedy extraction pattern moved `"a — b"` into the channel capture — so
the emitted message does not contain the full body. -/
theorem c8_counterexample :
    get_chat_dataframe
        "2018-12-10_11:26:40 — :alice!alice@alice.tmi.twitch.tv PRIVMSG #ninja :a — b :c\n\n\n" =
      [{ dt := ⟨2018, 12, 10, 11, 26, 40⟩, channel := "ninja :a — b", username := "alice",
         message := "c" }] ∧
    ¬ ("a — b :c".data <:+: "c".data) := by
  decide

/-- C8 amended: the split-on-first-separator-then-rejoin step itself
preserves everything after the first em dash intact (up to the surrounding
whitespace strip) — in particular all further em-dash occurrences survive
into the string handed to the extraction pattern — and for a body containing
the glyph but no `" :"` the emitted message is the full body, e.g.
`"a — b"`. -/
theorem c8_amended :
    (∀ pre body : List Char, '—' ∉ pre → umOf (pre ++ '—' :: body) = pyStrip body) ∧
    get_chat_dataframe
        "2018-12-10_11:26:40 — :alice!alice@alice.tmi.twitch.tv PRIVMSG #ninja :a — b\n\n\n" =
      [{ dt := ⟨2018, 12, 10, 11, 26, 40⟩, channel := "ninja", username := "alice",
         message := "a — b" }] :=
  ⟨fun _ _ h => umOf_append h, by decide⟩

/-- Witness for C8: the rejoin step hands the full em-dash-containing body
(whitespace-stripped) to the extraction pattern. -/
theorem c8_witness :
    umOf ("2018-12-10_11:26:40 ".data ++ '—' :: " :alice!alice@alice.tmi.twitch.tv PRIVMSG #ninja :a — b".data) =
      pyStrip " :alice!alice@alice.tmi.twitch.tv PRIVMSG #ninja :a — b".data :=
  c8_amended.1 _ _ (by decide)

/-- C9: `get_chat_dataframe` is deterministic and restartable — two runs
over the same unchanged content produce identical sequences in the same
order (the embedded parser is a pure function of the file content). -/
theorem c9_deterministic : ∀ (content : String) (run1 run2 : List ParsedMessage),
    run1 = get_chat_dataframe content → run2 = get_chat_dataframe content →
    run1 = run2 := by
  intro content run1 run2 h1 h2
  rw [h1, h2]

/-- Witness for C9 at a concrete content. -/
theorem c9_witness :
    get_chat_dataframe "2018-12-10_11:26:40 — :a!b@c.tmi.twitch.tv PRIVMSG #x :y\n\n\n" =
      get_chat_dataframe "2018-12-10_11:26:40 — :a!b@c.tmi.twitch.tv PRIVMSG #x :y\n\n\n" :=
  c9_deterministic "2018-12-10_11:26:40 — :a!b@c.tmi.twitch.tv PRIVMSG #x :y\n\n\n" _ _ rfl rfl

/-- C10: the capture groups are greedy — on the well-formed record whose
message body `"hello :world"` contains `" :"`, the channel capture extends
to the last `" :"` occurrence: the emitted channel is `"ninja :hello"`
(containing part of the message text, not the bare channel name) and the
emitted message is `"world"`, a proper suffix of the actual body. -/
theorem c10_greedy_capture :
    get_chat_dataframe
        "2018-12-10_11:26:40 — :alice!alice@alice.tmi.twitch.tv PRIVMSG #ninja :hello :world\n\n\n" =
      [{ dt := ⟨2018, 12, 10, 11, 26, 40⟩, channel := "ninja :hello", username := "alice",
         message := "world" }] ∧
    ("hello".data <:+: "ninja :hello".data) ∧
    ("ninja :hello" : String) ≠ "ninja" ∧
    ("world".data <:+ "hello :world".data) ∧
    ("world" : String) ≠ "hello :world" := by
  decide

end TwitchChat
